import Mathlib

/-!
Shallow embedding of the event-listing service in src/Phase-1/main.py:
the read-through cache resolver (get_event), create_event, delete_event
and health_check, over an explicit system state (Mongo collection as a
list of records, Redis cache as an association list with expiry times,
and a clock).  Store/cache network calls are recorded in an operation
trace so that claims about which queries were issued can be stated.
The try/except blocks around store calls are modelled by a Boolean
error oracle (true = the guarded store call raised).
-/

namespace Inbenne

/-- A character bson's ObjectId validity check accepts: a hexadecimal
digit of either case. -/
def isHexChar (c : Char) : Bool :=
  c.isDigit || (('a' ≤ c) && (c ≤ 'f')) || (('A' ≤ c) && (c ≤ 'F'))

/-- Embeds bson.ObjectId.is_valid for a string argument: exactly 24
hexadecimal characters. -/
def isValidObjectId (s : String) : Bool :=
  s.length == 24 && s.data.all isHexChar

/-- ASCII lowercasing of one character, as Python's str.lower acts on
the hex characters an ObjectId string is made of. -/
def lowerChar (c : Char) : Char :=
  if 'A' ≤ c && c ≤ 'Z' then Char.ofNat (c.toNat + 32) else c

/-- str(ObjectId(s)) for a valid s: the canonical (lowercase) hex form.
ObjectId stores raw bytes, so lookups by ObjectId(s) compare the
canonical form. -/
def objectIdOf (s : String) : String := String.mk (s.data.map lowerChar)

/-- The Event pydantic model (main.py lines 23-43). -/
structure Event where
  id : String
  title : String
  description : String
  date : String
  location : String
  category : Option String
  organizer : Option String
deriving DecidableEq, Repr

/-- The EventCreate pydantic model (main.py lines 45-51). -/
structure EventCreate where
  title : String
  description : String
  date : String
  location : String
  category : Option String
  organizer : Option String
deriving DecidableEq, Repr

/-- A document of the events collection.  Every stored document carries
a native `_id` (here `oid`, kept in canonical string form); seed_db.py
documents additionally carry a string "id" field, create_event documents
do not, so `idField` is optional.  `created_at` is set by create_event
and by the seeding script. -/
structure MongoRecord where
  oid : String
  idField : Option String
  title : String
  description : String
  date : String
  location : String
  category : Option String
  organizer : Option String
  created_at : Option String
deriving DecidableEq, Repr

/-- CACHE_TTL (main.py line 14). -/
def CACHE_TTL : Nat := 3600

/-- The Redis cache: association list of key, cached Event snapshot
(json round-trips, so the snapshot is kept as the Event itself) and
absolute expiry time. -/
abbrev Cache := List (String × Event × Nat)

/-- redis_client.get: the value under a key, treating an expired entry
as absent (Redis enforces expiry on read). -/
def cacheLookup (now : Nat) (c : Cache) (k : String) : Option Event :=
  match c.find? (fun e => e.1 == k) with
  | some (_, v, exp) => if now < exp then some v else none
  | none => none

/-- redis_client.setex: bind the key to a value expiring at `exp`,
replacing any previous binding. -/
def cacheSet (c : Cache) (k : String) (v : Event) (exp : Nat) : Cache :=
  (k, v, exp) :: c.filter (fun e => e.1 != k)

/-- redis_client.delete: remove the binding for the key, a no-op when
no binding exists. -/
def cacheDel (c : Cache) (k : String) : Cache :=
  c.filter (fun e => e.1 != k)

/-- Network calls issued to the cache and to the store, in order. -/
inductive Op where
  | cacheGet (key : String)
  | cacheSetex (key : String) (ttl : Nat)
  | cacheDel (key : String)
  | storeFindByOid (oid : String)
  | storeFindById (idVal : String)
  | storeDeleteByOid (oid : String)
  | storeDeleteById (idVal : String)
  | storeInsert
deriving DecidableEq, Repr

/-- The system state a request handler sees: the events collection, the
cache contents and the current time. -/
structure SysState where
  store : List MongoRecord
  cache : Cache
  now : Nat
deriving DecidableEq, Repr

/-- Cache key computation: "event:" + event_id (main.py line 110). -/
def cacheKey (eventId : String) : String := "event:" ++ eventId

/-- The 404 detail string (main.py lines 134 and 182). -/
def notFoundMsg (eventId : String) : String :=
  "Event with id " ++ eventId ++ " not found"

/-- The delete confirmation message (main.py line 184). -/
def deletedMsg (eventId : String) : String :=
  "Event " ++ eventId ++ " deleted successfully"

/-- find_one by native identifier: first record whose `_id` equals
ObjectId(eventId). -/
def findByOid (store : List MongoRecord) (eventId : String) : Option MongoRecord :=
  store.find? (fun r => r.oid == objectIdOf eventId)

/-- find_one by the plain string field: first record whose "id" field
equals the identifier. -/
def findByIdField (store : List MongoRecord) (eventId : String) : Option MongoRecord :=
  store.find? (fun r => r.idField == some eventId)

/-- The guarded native-identifier attempt of get_event (main.py lines
123-127): nothing when the identifier is not a valid ObjectId, nothing
when the guarded call raised (err = true, the exception is swallowed),
otherwise the find_one result. -/
def nativeLookup (store : List MongoRecord) (eventId : String) (err : Bool) :
    Option MongoRecord :=
  if isValidObjectId eventId then
    (if err then none else findByOid store eventId)
  else none

/-- Normalization of a found document into an Event (main.py lines
137-140): the "id" field becomes str of the native `_id` (overwriting
any stored "id" field), the native field is dropped, and pydantic
ignores the extra created_at key. -/
def normalizeRecord (r : MongoRecord) : Event :=
  { id := r.oid, title := r.title, description := r.description,
    date := r.date, location := r.location, category := r.category,
    organizer := r.organizer }

/-- get_event (main.py lines 103-149): result (404 carries the detail
string), post-state, and the trace of cache/store calls. -/
def getEvent (st : SysState) (eventId : String) (err : Bool) :
    Except String Event × SysState × List Op :=
  let key := cacheKey eventId
  match cacheLookup st.now st.cache key with
  | some e => (Except.ok e, st, [Op.cacheGet key])
  | none =>
    let tr0 := [Op.cacheGet key] ++
      (if isValidObjectId eventId then [Op.storeFindByOid (objectIdOf eventId)] else [])
    match nativeLookup st.store eventId err with
    | some r =>
      let e := normalizeRecord r
      (Except.ok e,
       { st with cache := cacheSet st.cache key e (st.now + CACHE_TTL) },
       tr0 ++ [Op.cacheSetex key CACHE_TTL])
    | none =>
      let tr1 := tr0 ++ [Op.storeFindById eventId]
      match findByIdField st.store eventId with
      | some r =>
        let e := normalizeRecord r
        (Except.ok e,
         { st with cache := cacheSet st.cache key e (st.now + CACHE_TTL) },
         tr1 ++ [Op.cacheSetex key CACHE_TTL])
      | none => (Except.error (notFoundMsg eventId), st, tr1)

/-- create_event (main.py lines 152-163): the inserted document gets
the generated native identifier `newOid` and the server-set creation
timestamp; the returned Event carries the string form of the new
identifier.  The "id" key is added to the local dict only after the
insert, so the stored document has no "id" field. -/
def createEvent (st : SysState) (input : EventCreate) (newOid : String)
    (nowIso : String) : Event × SysState × List Op :=
  let record : MongoRecord :=
    { oid := newOid, idField := none, title := input.title,
      description := input.description, date := input.date,
      location := input.location, category := input.category,
      organizer := input.organizer, created_at := some nowIso }
  let e : Event :=
    { id := newOid, title := input.title, description := input.description,
      date := input.date, location := input.location,
      category := input.category, organizer := input.organizer }
  (e, { st with store := st.store ++ [record] }, [Op.storeInsert])

/-- delete_one: removes the first matching document, reporting the
deleted count (0 or 1). -/
def deleteOne (store : List MongoRecord) (p : MongoRecord → Bool) :
    List MongoRecord × Nat :=
  if store.any p then (store.eraseP p, 1) else (store, 0)

/-- delete_event (main.py lines 166-184): cache invalidation first,
then deletion by ObjectId inside try; the except branch (string-field
deletion) runs only when ObjectId(event_id) raised (invalid form) or
the native delete call itself raised (`derr`); 404 iff the deletion
that ran removed zero documents. -/
def deleteEvent (st : SysState) (eventId : String) (derr : Bool) :
    Except String String × SysState × List Op :=
  let key := cacheKey eventId
  let cache1 := cacheDel st.cache key
  if isValidObjectId eventId then
    if derr then
      let out := deleteOne st.store (fun r => r.idField == some eventId)
      let tr := [Op.cacheDel key, Op.storeDeleteByOid (objectIdOf eventId),
                 Op.storeDeleteById eventId]
      if out.2 == 0 then
        (Except.error (notFoundMsg eventId),
         { st with cache := cache1, store := out.1 }, tr)
      else
        (Except.ok (deletedMsg eventId),
         { st with cache := cache1, store := out.1 }, tr)
    else
      let out := deleteOne st.store (fun r => r.oid == objectIdOf eventId)
      let tr := [Op.cacheDel key, Op.storeDeleteByOid (objectIdOf eventId)]
      if out.2 == 0 then
        (Except.error (notFoundMsg eventId),
         { st with cache := cache1, store := out.1 }, tr)
      else
        (Except.ok (deletedMsg eventId),
         { st with cache := cache1, store := out.1 }, tr)
  else
    let out := deleteOne st.store (fun r => r.idField == some eventId)
    let tr := [Op.cacheDel key, Op.storeDeleteById eventId]
    if out.2 == 0 then
      (Except.error (notFoundMsg eventId),
       { st with cache := cache1, store := out.1 }, tr)
    else
      (Except.ok (deletedMsg eventId),
       { st with cache := cache1, store := out.1 }, tr)

/-- The health response body (main.py lines 205-209). -/
structure HealthResponse where
  status : String
  redis : String
  mongodb : String
deriving DecidableEq, Repr

/-- One connectivity probe folded to its reported string: "connected"
on success, "disconnected: " + message when the ping raised. -/
def probeStatus : Except String Unit → String
  | Except.ok _ => "connected"
  | Except.error e => "disconnected: " ++ e

/-- health_check (main.py lines 187-209) over the outcomes of the two
pings: a plain response for every outcome, exceptions captured as
data. -/
def healthCheck (redisProbe mongoProbe : Except String Unit) : HealthResponse :=
  { status := "healthy",
    redis := probeStatus redisProbe,
    mongodb := probeStatus mongoProbe }

/-- The native-then-string lookup chain of get_event, as one value: the
record the miss path resolves, when any. -/
def dualLookup (store : List MongoRecord) (eventId : String) (err : Bool) :
    Option MongoRecord :=
  match nativeLookup store eventId err with
  | some r => some r
  | none => findByIdField store eventId

/-- Concrete fixture: a stored document carrying both a native `_id`
and a seeded string "id" field. -/
def recSample : MongoRecord :=
  { oid := "0123456789abcdef01234567", idField := some "ev-1",
    title := "Tech Conference 2025",
    description := "Annual technology conference",
    date := "2025-11-15T09:00:00", location := "San Francisco, CA",
    category := some "Technology", organizer := some "Tech Corp",
    created_at := some "2025-01-01T00:00:00" }

/-- Concrete fixture: store holds recSample, cache empty. -/
def stSample : SysState := { store := [recSample], cache := [], now := 100 }

/-- Concrete fixture: an Event sitting in the cache. -/
def evCached : Event :=
  { id := "9", title := "Cached", description := "Cached event",
    date := "2025-01-02T00:00:00", location := "Berlin",
    category := none, organizer := none }

/-- Concrete fixture: empty store, cache holds evCached under key
event:9, unexpired. -/
def stCached : SysState :=
  { store := [], cache := [(cacheKey "9", evCached, 500)], now := 100 }

/-- Concrete fixture: a document whose string "id" field is itself a
syntactically valid ObjectId, while its native `_id` is a different
one. -/
def recOnlyId : MongoRecord :=
  { oid := "aaaaaaaaaaaaaaaaaaaaaaaa",
    idField := some "507f1f77bcf86cd799439011", title := "T",
    description := "D", date := "2025-01-01", location := "L",
    category := none, organizer := none, created_at := none }

/-- Concrete fixture: store holds only recOnlyId. -/
def stOnlyId : SysState := { store := [recOnlyId], cache := [], now := 0 }

/-- Concrete fixture: a well-formed create payload. -/
def inputSample : EventCreate :=
  { title := "Marathon 2025", description := "Annual city marathon",
    date := "2025-09-10T07:00:00", location := "Boston, MA",
    category := some "Sports", organizer := none }

end Inbenne

deriving instance DecidableEq for Except

namespace Inbenne

/- Helper lemmas about the embedded operations, shared by the claim
theorems below. -/

theorem nativeLookup_valid {store : List MongoRecord} {eventId : String}
    {err : Bool} {r : MongoRecord}
    (h : nativeLookup store eventId err = some r) :
    isValidObjectId eventId = true := by
  cases hv : isValidObjectId eventId with
  | true => rfl
  | false => simp [nativeLookup, hv] at h

theorem cacheLookup_set_self (now : Nat) (c : Cache) (k : String) (v : Event) :
    cacheLookup now (cacheSet c k v (now + CACHE_TTL)) k = some v := by
  have h : now < now + CACHE_TTL := by unfold CACHE_TTL; omega
  simp [cacheLookup, cacheSet, List.find?, h]

theorem getEvent_hit (st : SysState) (eventId : String) (err : Bool) (e : Event)
    (h : cacheLookup st.now st.cache (cacheKey eventId) = some e) :
    getEvent st eventId err = (Except.ok e, st, [Op.cacheGet (cacheKey eventId)]) := by
  simp only [getEvent, h]

theorem getEvent_miss_native (st : SysState) (eventId : String) (err : Bool)
    (r : MongoRecord)
    (hmiss : cacheLookup st.now st.cache (cacheKey eventId) = none)
    (hn : nativeLookup st.store eventId err = some r) :
    getEvent st eventId err =
      (Except.ok (normalizeRecord r),
       { st with cache := cacheSet st.cache (cacheKey eventId)
                   (normalizeRecord r) (st.now + CACHE_TTL) },
       [Op.cacheGet (cacheKey eventId), Op.storeFindByOid (objectIdOf eventId),
        Op.cacheSetex (cacheKey eventId) CACHE_TTL]) := by
  have hv := nativeLookup_valid hn
  simp [getEvent, hmiss, hn, hv]

theorem getEvent_miss_fallback (st : SysState) (eventId : String) (err : Bool)
    (r : MongoRecord)
    (hmiss : cacheLookup st.now st.cache (cacheKey eventId) = none)
    (hn : nativeLookup st.store eventId err = none)
    (hf : findByIdField st.store eventId = some r) :
    getEvent st eventId err =
      (Except.ok (normalizeRecord r),
       { st with cache := cacheSet st.cache (cacheKey eventId)
                   (normalizeRecord r) (st.now + CACHE_TTL) },
       [Op.cacheGet (cacheKey eventId)] ++
         (if isValidObjectId eventId then [Op.storeFindByOid (objectIdOf eventId)] else []) ++
         [Op.storeFindById eventId, Op.cacheSetex (cacheKey eventId) CACHE_TTL]) := by
  simp [getEvent, hmiss, hn, hf]

theorem getEvent_miss_notfound (st : SysState) (eventId : String) (err : Bool)
    (hmiss : cacheLookup st.now st.cache (cacheKey eventId) = none)
    (hn : nativeLookup st.store eventId err = none)
    (hf : findByIdField st.store eventId = none) :
    getEvent st eventId err =
      (Except.error (notFoundMsg eventId), st,
       [Op.cacheGet (cacheKey eventId)] ++
         (if isValidObjectId eventId then [Op.storeFindByOid (objectIdOf eventId)] else []) ++
         [Op.storeFindById eventId]) := by
  simp [getEvent, hmiss, hn, hf]

/-- C1: on a read-through get that misses the cache, the store is
queried by ObjectId only when the identifier passes ObjectId validity,
and the plain string-field lookup runs if and only if the native
attempt was not attempted, raised, or returned no record. -/
theorem c1_dual_lookup_discipline (st : SysState) (eventId : String) (err : Bool)
    (hmiss : cacheLookup st.now st.cache (cacheKey eventId) = none) :
    (Op.storeFindByOid (objectIdOf eventId) ∈ (getEvent st eventId err).2.2 ↔
      isValidObjectId eventId = true)
    ∧ (Op.storeFindById eventId ∈ (getEvent st eventId err).2.2 ↔
      (isValidObjectId eventId = false ∨ err = true ∨
        (isValidObjectId eventId = true ∧ err = false ∧
          findByOid st.store eventId = none))) := by
  cases hv : isValidObjectId eventId with
  | false =>
    have hn : nativeLookup st.store eventId err = none := by
      simp [nativeLookup, hv]
    cases hf : findByIdField st.store eventId with
    | none => simp [getEvent_miss_notfound st eventId err hmiss hn hf, hv]
    | some r => simp [getEvent_miss_fallback st eventId err r hmiss hn hf, hv]
  | true =>
    cases he : err with
    | true =>
      have hn : nativeLookup st.store eventId true = none := by
        simp [nativeLookup, hv]
      cases hf : findByIdField st.store eventId with
      | none => simp [getEvent_miss_notfound st eventId true hmiss hn hf, hv]
      | some r => simp [getEvent_miss_fallback st eventId true r hmiss hn hf, hv]
    | false =>
      cases ho : findByOid st.store eventId with
      | none =>
        have hn : nativeLookup st.store eventId false = none := by
          simp [nativeLookup, hv, ho]
        cases hf : findByIdField st.store eventId with
        | none => simp [getEvent_miss_notfound st eventId false hmiss hn hf, hv, ho]
        | some r => simp [getEvent_miss_fallback st eventId false r hmiss hn hf, hv, ho]
      | some r =>
        have hn : nativeLookup st.store eventId false = some r := by
          simp [nativeLookup, hv, ho]
        simp [getEvent_miss_native st eventId false r hmiss hn, hv, ho]

/-- C1 witness: the discipline at a concrete missing-cache state. -/
theorem c1_witness :
    (Op.storeFindByOid (objectIdOf "ev-1") ∈ (getEvent stSample "ev-1" false).2.2 ↔
      isValidObjectId "ev-1" = true)
    ∧ (Op.storeFindById "ev-1" ∈ (getEvent stSample "ev-1" false).2.2 ↔
      (isValidObjectId "ev-1" = false ∨ false = true ∨
        (isValidObjectId "ev-1" = true ∧ false = false ∧
          findByOid stSample.store "ev-1" = none))) :=
  c1_dual_lookup_discipline stSample "ev-1" false (by decide)

/-- C2: a present cache key makes get return the cached snapshot
immediately — no store query, no staleness check, no state change —
and consequently a get repeated after a miss-and-populate returns the
identical Event with only a cache read issued. -/
theorem c2_cache_hit_fast_path :
    (∀ (st : SysState) (eventId : String) (e : Event) (err : Bool),
      cacheLookup st.now st.cache (cacheKey eventId) = some e →
      getEvent st eventId err = (Except.ok e, st, [Op.cacheGet (cacheKey eventId)]))
    ∧ (∀ (st : SysState) (eventId : String) (err err2 : Bool) (e : Event),
      cacheLookup st.now st.cache (cacheKey eventId) = none →
      (getEvent st eventId err).1 = Except.ok e →
      getEvent (getEvent st eventId err).2.1 eventId err2 =
        (Except.ok e, (getEvent st eventId err).2.1, [Op.cacheGet (cacheKey eventId)])) := by
  constructor
  · intro st eventId e err h
    exact getEvent_hit st eventId err e h
  · intro st eventId err err2 e hmiss hok
    cases hn : nativeLookup st.store eventId err with
    | some r =>
      have hg := getEvent_miss_native st eventId err r hmiss hn
      rw [hg] at hok
      simp only [Except.ok.injEq] at hok
      subst hok
      rw [hg]
      exact getEvent_hit _ eventId err2 _
        (cacheLookup_set_self st.now st.cache (cacheKey eventId) (normalizeRecord r))
    | none =>
      cases hf : findByIdField st.store eventId with
      | some r =>
        have hg := getEvent_miss_fallback st eventId err r hmiss hn hf
        rw [hg] at hok
        simp only [Except.ok.injEq] at hok
        subst hok
        rw [hg]
        exact getEvent_hit _ eventId err2 _
          (cacheLookup_set_self st.now st.cache (cacheKey eventId) (normalizeRecord r))
      | none =>
        have hg := getEvent_miss_notfound st eventId err hmiss hn hf
        rw [hg] at hok
        simp at hok

/-- C2 witness: a concrete hit, and a concrete repeat-get after a
miss-and-populate. -/
theorem c2_witness :
    getEvent stCached "9" false = (Except.ok evCached, stCached, [Op.cacheGet (cacheKey "9")])
    ∧ getEvent (getEvent stSample "ev-1" false).2.1 "ev-1" false =
        (Except.ok (normalizeRecord recSample), (getEvent stSample "ev-1" false).2.1,
         [Op.cacheGet (cacheKey "ev-1")]) :=
  ⟨c2_cache_hit_fast_path.1 stCached "9" evCached false (by decide),
   c2_cache_hit_fast_path.2 stSample "ev-1" false false (normalizeRecord recSample)
     (by decide) (by decide)⟩

/-- C3: a miss that resolves a record returns its normalization (the
native identifier becoming the Event's string id) and writes the
snapshot into the cache under the computed key with the fixed one-hour
expiry. -/
theorem c3_miss_populates_cache (st : SysState) (eventId : String) (err : Bool)
    (r : MongoRecord)
    (hmiss : cacheLookup st.now st.cache (cacheKey eventId) = none)
    (hdual : dualLookup st.store eventId err = some r) :
    (getEvent st eventId err).1 = Except.ok (normalizeRecord r)
    ∧ (getEvent st eventId err).2.1.cache =
        cacheSet st.cache (cacheKey eventId) (normalizeRecord r) (st.now + CACHE_TTL)
    ∧ Op.cacheSetex (cacheKey eventId) CACHE_TTL ∈ (getEvent st eventId err).2.2
    ∧ CACHE_TTL = 3600
    ∧ (normalizeRecord r).id = r.oid := by
  unfold dualLookup at hdual
  cases hn : nativeLookup st.store eventId err with
  | some r2 =>
    rw [hn] at hdual
    simp only [Option.some.injEq] at hdual
    subst hdual
    rw [getEvent_miss_native st eventId err r2 hmiss hn]
    refine ⟨rfl, rfl, ?_, rfl, rfl⟩
    simp
  | none =>
    rw [hn] at hdual
    rw [getEvent_miss_fallback st eventId err r hmiss hn hdual]
    refine ⟨rfl, rfl, ?_, rfl, rfl⟩
    simp

/-- C3 witness: populate at a concrete miss. -/
theorem c3_witness :
    (getEvent stSample "ev-1" false).1 = Except.ok (normalizeRecord recSample)
    ∧ (getEvent stSample "ev-1" false).2.1.cache =
        cacheSet stSample.cache (cacheKey "ev-1") (normalizeRecord recSample)
          (stSample.now + CACHE_TTL)
    ∧ Op.cacheSetex (cacheKey "ev-1") CACHE_TTL ∈ (getEvent stSample "ev-1" false).2.2
    ∧ CACHE_TTL = 3600
    ∧ (normalizeRecord recSample).id = recSample.oid :=
  c3_miss_populates_cache stSample "ev-1" false recSample (by decide) (by decide)

/-- C4: get fails with NotFound — a 404 whose detail names the
identifier — exactly when the cache has no entry and neither lookup
shape matches a stored record, and succeeds in every other case. -/
theorem c4_notfound_iff_no_match (st : SysState) (eventId : String) :
    ((getEvent st eventId false).1 = Except.error (notFoundMsg eventId) ↔
      (cacheLookup st.now st.cache (cacheKey eventId) = none
       ∧ nativeLookup st.store eventId false = none
       ∧ findByIdField st.store eventId = none))
    ∧ (∃ pre post, notFoundMsg eventId = pre ++ eventId ++ post)
    ∧ ((∃ e, (getEvent st eventId false).1 = Except.ok e) ↔
      ¬(cacheLookup st.now st.cache (cacheKey eventId) = none
        ∧ nativeLookup st.store eventId false = none
        ∧ findByIdField st.store eventId = none)) := by
  refine ⟨?_, ⟨"Event with id ", " not found", rfl⟩, ?_⟩
  all_goals
    cases hc : cacheLookup st.now st.cache (cacheKey eventId) with
    | some e => simp [getEvent_hit st eventId false e hc, hc]
    | none =>
      cases hn : nativeLookup st.store eventId false with
      | some r => simp [getEvent_miss_native st eventId false r hc hn, hc, hn]
      | none =>
        cases hf : findByIdField st.store eventId with
        | some r => simp [getEvent_miss_fallback st eventId false r hc hn hf, hc, hn, hf]
        | none => simp [getEvent_miss_notfound st eventId false hc hn hf, hc, hn, hf]

/-- C4 witness: the characterization at a concrete state and
identifier. -/
theorem c4_witness :
    ((getEvent stSample "ghost" false).1 = Except.error (notFoundMsg "ghost") ↔
      (cacheLookup stSample.now stSample.cache (cacheKey "ghost") = none
       ∧ nativeLookup stSample.store "ghost" false = none
       ∧ findByIdField stSample.store "ghost" = none))
    ∧ (∃ pre post, notFoundMsg "ghost" = pre ++ "ghost" ++ post)
    ∧ ((∃ e, (getEvent stSample "ghost" false).1 = Except.ok e) ↔
      ¬(cacheLookup stSample.now stSample.cache (cacheKey "ghost") = none
        ∧ nativeLookup stSample.store "ghost" false = none
        ∧ findByIdField stSample.store "ghost" = none)) :=
  c4_notfound_iff_no_match stSample "ghost"

theorem deleteOne_count_zero_iff (store : List MongoRecord) (p : MongoRecord → Bool) :
    (deleteOne store p).2 = 0 ↔ (deleteOne store p).1.length = store.length := by
  cases ha : store.any p with
  | false => simp [deleteOne, ha]
  | true =>
    have ⟨x, hx, hpx⟩ := List.any_eq_true.mp ha
    have hlen := List.length_eraseP_add_one hx hpx
    simp only [deleteOne, ha, if_true]
    omega

/-- C5 counterexample: an identifier that is a syntactically valid
ObjectId but matches no document natively, while a document whose "id"
string field equals it exists.  The claim's fallback would remove that
document; the code performs no string-field deletion, leaves the store
unchanged and reports NotFound. -/
theorem c5_counterexample :
    isValidObjectId "507f1f77bcf86cd799439011" = true
    ∧ findByOid stOnlyId.store "507f1f77bcf86cd799439011" = none
    ∧ (∃ r ∈ stOnlyId.store, r.idField = some "507f1f77bcf86cd799439011")
    ∧ (deleteEvent stOnlyId "507f1f77bcf86cd799439011" false).1 =
        Except.error (notFoundMsg "507f1f77bcf86cd799439011")
    ∧ (deleteEvent stOnlyId "507f1f77bcf86cd799439011" false).2.1.store = stOnlyId.store
    ∧ Op.storeDeleteById "507f1f77bcf86cd799439011" ∉
        (deleteEvent stOnlyId "507f1f77bcf86cd799439011" false).2.2 := by
  decide

/-- C5 (amended): delete attempts native deletion exactly when the
identifier is a valid ObjectId; the string-field deletion runs exactly
when the native branch raised (invalid identifier form, or the native
delete call itself raised) — not when a well-formed native deletion
merely affected zero records; NotFound exactly when the deletion that
ran removed zero records. -/
theorem c5_amended_delete_fallback (st : SysState) (eventId : String) (derr : Bool) :
    (Op.storeDeleteByOid (objectIdOf eventId) ∈ (deleteEvent st eventId derr).2.2 ↔
      isValidObjectId eventId = true)
    ∧ (Op.storeDeleteById eventId ∈ (deleteEvent st eventId derr).2.2 ↔
      (isValidObjectId eventId = false ∨ derr = true))
    ∧ ((deleteEvent st eventId derr).1 = Except.error (notFoundMsg eventId) ↔
      (deleteEvent st eventId derr).2.1.store.length = st.store.length) := by
  cases hv : isValidObjectId eventId with
  | false =>
    cases hout : deleteOne st.store (fun r => r.idField == some eventId) with
    | mk store1 n =>
      have hlen := deleteOne_count_zero_iff st.store (fun r => r.idField == some eventId)
      rw [hout] at hlen
      cases n with
      | zero =>
        have hz : store1.length = st.store.length := hlen.mp rfl
        simp [deleteEvent, hv, hout, hz]
      | succ m =>
        have hne : store1.length ≠ st.store.length := by
          intro h
          have := hlen.mpr h
          omega
        simp [deleteEvent, hv, hout, hne]
  | true =>
    cases hd : derr with
    | true =>
      cases hout : deleteOne st.store (fun r => r.idField == some eventId) with
      | mk store1 n =>
        have hlen := deleteOne_count_zero_iff st.store (fun r => r.idField == some eventId)
        rw [hout] at hlen
        cases n with
        | zero =>
          have hz : store1.length = st.store.length := hlen.mp rfl
          simp [deleteEvent, hv, hout, hz]
        | succ m =>
          have hne : store1.length ≠ st.store.length := by
            intro h
            have := hlen.mpr h
            omega
          simp [deleteEvent, hv, hout, hne]
    | false =>
      cases hout : deleteOne st.store (fun r => r.oid == objectIdOf eventId) with
      | mk store1 n =>
        have hlen := deleteOne_count_zero_iff st.store (fun r => r.oid == objectIdOf eventId)
        rw [hout] at hlen
        cases n with
        | zero =>
          have hz : store1.length = st.store.length := hlen.mp rfl
          simp [deleteEvent, hv, hout, hz]
        | succ m =>
          have hne : store1.length ≠ st.store.length := by
            intro h
            have := hlen.mpr h
            omega
          simp [deleteEvent, hv, hout, hne]

/-- C5 witness: the amended discipline at the concrete counterexample
state. -/
theorem c5_witness :
    (Op.storeDeleteByOid (objectIdOf "507f1f77bcf86cd799439011") ∈
        (deleteEvent stOnlyId "507f1f77bcf86cd799439011" false).2.2 ↔
      isValidObjectId "507f1f77bcf86cd799439011" = true)
    ∧ (Op.storeDeleteById "507f1f77bcf86cd799439011" ∈
        (deleteEvent stOnlyId "507f1f77bcf86cd799439011" false).2.2 ↔
      (isValidObjectId "507f1f77bcf86cd799439011" = false ∨ false = true))
    ∧ ((deleteEvent stOnlyId "507f1f77bcf86cd799439011" false).1 =
        Except.error (notFoundMsg "507f1f77bcf86cd799439011") ↔
      (deleteEvent stOnlyId "507f1f77bcf86cd799439011" false).2.1.store.length =
        stOnlyId.store.length) :=
  c5_amended_delete_fallback stOnlyId "507f1f77bcf86cd799439011" false

/-- C6: delete removes the cache entry unconditionally and first — the
trace starts with the cache deletion — the invalidated cache survives a
NotFound outcome, and invalidation is an error-free no-op when no entry
exists. -/
theorem c6_cache_invalidate_first (st : SysState) (eventId : String) (derr : Bool) :
    (deleteEvent st eventId derr).2.1.cache = cacheDel st.cache (cacheKey eventId)
    ∧ (∃ rest, (deleteEvent st eventId derr).2.2 = Op.cacheDel (cacheKey eventId) :: rest)
    ∧ ((deleteEvent st eventId derr).1 = Except.error (notFoundMsg eventId) →
        (deleteEvent st eventId derr).2.1.cache = cacheDel st.cache (cacheKey eventId))
    ∧ ((∀ en ∈ st.cache, en.1 ≠ cacheKey eventId) →
        (deleteEvent st eventId derr).2.1.cache = st.cache) := by
  have hcache : (deleteEvent st eventId derr).2.1.cache = cacheDel st.cache (cacheKey eventId) := by
    simp only [deleteEvent]
    repeat' split
    all_goals rfl
  have htrace : ∃ rest,
      (deleteEvent st eventId derr).2.2 = Op.cacheDel (cacheKey eventId) :: rest := by
    simp only [deleteEvent]
    repeat' split
    all_goals exact ⟨_, rfl⟩
  refine ⟨hcache, htrace, fun _ => hcache, ?_⟩
  intro hnone
  rw [hcache]
  unfold cacheDel
  rw [List.filter_eq_self]
  intro a ha
  exact bne_iff_ne.mpr (hnone a ha)

/-- C6 witness: deleting a nonexistent identifier at a concrete state
still performs the (no-op) cache invalidation. -/
theorem c6_witness :
    (deleteEvent stSample "ghost" false).2.1.cache = cacheDel stSample.cache (cacheKey "ghost")
    ∧ (∃ rest, (deleteEvent stSample "ghost" false).2.2 = Op.cacheDel (cacheKey "ghost") :: rest)
    ∧ ((deleteEvent stSample "ghost" false).1 = Except.error (notFoundMsg "ghost") →
        (deleteEvent stSample "ghost" false).2.1.cache = cacheDel stSample.cache (cacheKey "ghost"))
    ∧ ((∀ en ∈ stSample.cache, en.1 ≠ cacheKey "ghost") →
        (deleteEvent stSample "ghost" false).2.1.cache = stSample.cache) :=
  c6_cache_invalidate_first stSample "ghost" false

/-- C7: create always succeeds on well-formed input, appending exactly
one document carrying the server-set creation timestamp, and a get with
the identifier create returned resolves an Event whose fields all match
the input, with a non-empty identifier. -/
theorem c7_create_then_get (st : SysState) (input : EventCreate) (newOid : String)
    (nowIso : String)
    (hvalid : isValidObjectId newOid = true)
    (hcanon : objectIdOf newOid = newOid)
    (hfresh : ∀ r ∈ st.store, r.oid ≠ newOid)
    (hnocache : cacheLookup st.now st.cache (cacheKey newOid) = none) :
    (createEvent st input newOid nowIso).2.1.store =
      st.store ++ [{ oid := newOid, idField := none, title := input.title,
                     description := input.description, date := input.date,
                     location := input.location, category := input.category,
                     organizer := input.organizer, created_at := some nowIso }]
    ∧ (createEvent st input newOid nowIso).1.id = newOid
    ∧ newOid ≠ ""
    ∧ (getEvent (createEvent st input newOid nowIso).2.1 newOid false).1 =
        Except.ok { id := newOid, title := input.title, description := input.description,
                    date := input.date, location := input.location,
                    category := input.category, organizer := input.organizer } := by
  have hne : newOid ≠ "" := by
    intro h
    rw [h] at hvalid
    simp [isValidObjectId] at hvalid
  refine ⟨rfl, rfl, hne, ?_⟩
  have hfind : findByOid (createEvent st input newOid nowIso).2.1.store newOid =
      some { oid := newOid, idField := none, title := input.title,
             description := input.description, date := input.date,
             location := input.location, category := input.category,
             organizer := input.organizer, created_at := some nowIso } := by
    show findByOid (st.store ++ [_]) newOid = _
    unfold findByOid
    rw [List.find?_append]
    have h1 : st.store.find? (fun r => r.oid == objectIdOf newOid) = none := by
      rw [List.find?_eq_none]
      intro r hr
      rw [hcanon]
      simp only [beq_iff_eq]
      exact hfresh r hr
    rw [h1]
    simp [List.find?, hcanon]
  have hn : nativeLookup (createEvent st input newOid nowIso).2.1.store newOid false =
      some { oid := newOid, idField := none, title := input.title,
             description := input.description, date := input.date,
             location := input.location, category := input.category,
             organizer := input.organizer, created_at := some nowIso } := by
    simp [nativeLookup, hvalid, hfind]
  have hnocache2 : cacheLookup (createEvent st input newOid nowIso).2.1.now
      (createEvent st input newOid nowIso).2.1.cache (cacheKey newOid) = none := hnocache
  rw [getEvent_miss_native ((createEvent st input newOid nowIso).2.1) newOid false _ hnocache2 hn]
  rfl

/-- C7 witness: a concrete create-then-get round trip. -/
theorem c7_witness :
    (createEvent stSample inputSample "abcdefabcdefabcdefabcdef" "2025-10-12T00:00:00").2.1.store =
      stSample.store ++
        [{ oid := "abcdefabcdefabcdefabcdef", idField := none,
           title := inputSample.title, description := inputSample.description,
           date := inputSample.date, location := inputSample.location,
           category := inputSample.category, organizer := inputSample.organizer,
           created_at := some "2025-10-12T00:00:00" }]
    ∧ (createEvent stSample inputSample "abcdefabcdefabcdefabcdef" "2025-10-12T00:00:00").1.id =
        "abcdefabcdefabcdefabcdef"
    ∧ "abcdefabcdefabcdefabcdef" ≠ ""
    ∧ (getEvent
        (createEvent stSample inputSample "abcdefabcdefabcdefabcdef" "2025-10-12T00:00:00").2.1
        "abcdefabcdefabcdefabcdef" false).1 =
        Except.ok { id := "abcdefabcdefabcdefabcdef", title := inputSample.title,
                    description := inputSample.description, date := inputSample.date,
                    location := inputSample.location, category := inputSample.category,
                    organizer := inputSample.organizer } :=
  c7_create_then_get stSample inputSample "abcdefabcdefabcdefabcdef" "2025-10-12T00:00:00"
    (by decide) (by decide) (by decide) (by decide)

/-- C8: health folds each probe outcome into its reported string —
"connected" on success, "disconnected: " plus the message on failure —
for every combination of probe outcomes, each report depending only on
its own probe; no failure escapes as an error. -/
theorem c8_health_never_fails (rp mp : Except String Unit) :
    (healthCheck rp mp).redis =
      (match rp with
       | Except.ok _ => "connected"
       | Except.error e => "disconnected: " ++ e)
    ∧ (healthCheck rp mp).mongodb =
      (match mp with
       | Except.ok _ => "connected"
       | Except.error e => "disconnected: " ++ e)
    ∧ (∀ mp2 : Except String Unit, (healthCheck rp mp2).redis = (healthCheck rp mp).redis)
    ∧ (∀ rp2 : Except String Unit, (healthCheck rp2 mp).mongodb = (healthCheck rp mp).mongodb) := by
  refine ⟨?_, ?_, fun mp2 => rfl, fun rp2 => rfl⟩
  · cases rp <;> rfl
  · cases mp <;> rfl

/-- C9: a get resolved through the string-field fallback returns an
Event whose id is the string form of the record's native identifier,
while caching it under the key computed from the requested identifier,
so the cached Event's id can differ from the id inside its cache key. -/
theorem c9_fallback_id_mismatch (st : SysState) (eventId : String) (err : Bool)
    (r : MongoRecord)
    (hmiss : cacheLookup st.now st.cache (cacheKey eventId) = none)
    (hn : nativeLookup st.store eventId err = none)
    (hf : findByIdField st.store eventId = some r) :
    (getEvent st eventId err).1 = Except.ok (normalizeRecord r)
    ∧ (normalizeRecord r).id = r.oid
    ∧ cacheLookup st.now (getEvent st eventId err).2.1.cache (cacheKey eventId) =
        some (normalizeRecord r)
    ∧ (r.oid ≠ eventId →
        ∃ e, cacheLookup st.now (getEvent st eventId err).2.1.cache (cacheKey eventId) =
          some e ∧ e.id ≠ eventId) := by
  rw [getEvent_miss_fallback st eventId err r hmiss hn hf]
  refine ⟨rfl, rfl, ?_, ?_⟩
  · exact cacheLookup_set_self st.now st.cache (cacheKey eventId) (normalizeRecord r)
  · intro hne
    exact ⟨normalizeRecord r,
      cacheLookup_set_self st.now st.cache (cacheKey eventId) (normalizeRecord r), hne⟩

/-- C9 witness: requesting "ev-1" resolves recSample, whose native
identifier differs, so the cached Event's id differs from the key. -/
theorem c9_witness :
    (getEvent stSample "ev-1" false).1 = Except.ok (normalizeRecord recSample)
    ∧ (normalizeRecord recSample).id = recSample.oid
    ∧ cacheLookup stSample.now (getEvent stSample "ev-1" false).2.1.cache (cacheKey "ev-1") =
        some (normalizeRecord recSample)
    ∧ (recSample.oid ≠ "ev-1" →
        ∃ e, cacheLookup stSample.now (getEvent stSample "ev-1" false).2.1.cache
          (cacheKey "ev-1") = some e ∧ e.id ≠ "ev-1") :=
  c9_fallback_id_mismatch stSample "ev-1" false recSample (by decide) (by decide) (by decide)

/-- C10: the health response's top-level status field is the string
"healthy" for every outcome of the two connectivity probes. -/
theorem c10_status_always_healthy (rp mp : Except String Unit) :
    (healthCheck rp mp).status = "healthy" := rfl

end Inbenne
